import Mathlib

set_option autoImplicit false

/-!
Shallow embedding of the layered Todo/User/Label application in
`projects/hello_world_axum_3` (domain value objects and entities, the
in-memory repositories, the duplicate-avoidance domain service, and the
application-service command handlers), together with theorems settling the
specification claims about them.

Modelling conventions:
* Rust `String` is Lean `String`; Rust `String::len` (UTF-8 byte count) is
  `strLen` below.
* `Uuid` identities (`UserId`, `TodoId`, `LabelId`) are abstracted to `Nat`;
  `Uuid::new_v4()` generation inside `User::new` / `Todo::new` is modelled by
  a caller-supplied fresh identifier, and `UuidError` cannot occur
  (`UserId::new` in the source is always `Ok`).
* The `HashMap` store behind the `RwLock` is modelled as an association list
  with map semantics: `insert` replaces the binding of the key, lookups take
  the first binding. Hash-map iteration order is unspecified in Rust; the
  list order is one admissible order.
* The `HashSet<Label>` of a todo is modelled as a duplicate-free list with
  membership decided by `Label`'s `PartialEq` (identity equality).
* Fallible Rust functions returning `Result` become `Except`; the stateful
  repository handles become explicit state passing (each application-service
  handler returns its result together with the resulting store, the store
  being unchanged whenever the handler short-circuits with an error).
-/

deriving instance DecidableEq for Except

namespace HelloWorldAxum3

/-- Rust `String::len`: the number of UTF-8 bytes of the string. -/
def strLen (s : String) : Nat :=
  s.utf8ByteSize

/-! ## Value objects (`domain/value_object.rs`, `domain/models/...`) -/

/-- Model of `UserNameError` from `domain/models/users/user_name.rs`. -/
inductive UserNameError where
  | nameTooShortError
  | nameTooLongError
deriving DecidableEq, Repr

/-- The `thiserror` display messages of `UserNameError`. -/
def UserNameError.message : UserNameError → String
  | .nameTooShortError => "User name must be at least 3 characters."
  | .nameTooLongError => "User name must be less than 20 characters."

/-- The `UserName` value object: an immutable wrapper around a string. -/
structure UserName where
  value : String
deriving DecidableEq, Repr

/-- Model of `UserName::new` from `domain/models/users/user_name.rs`: reject byte
lengths below 3 and at or above 20, otherwise store the raw string. -/
def UserName.new (value : String) : Except UserNameError UserName :=
  if strLen value < 3 then Except.error UserNameError.nameTooShortError
  else if strLen value ≥ 20 then Except.error UserNameError.nameTooLongError
  else Except.ok { value := value }

/-- Model of `LabelNameError` from `domain/models/labels/label_name.rs`. -/
inductive LabelNameError where
  | nameTooShortError
  | nameTooLongError
deriving DecidableEq, Repr

/-- The `thiserror` display messages of `LabelNameError`. -/
def LabelNameError.message : LabelNameError → String
  | .nameTooShortError => "Label name must not be empty."
  | .nameTooLongError => "Label name must be less than 20 characters."

/-- The `LabelName` value object. -/
structure LabelName where
  value : String
deriving DecidableEq, Repr

/-- Model of `LabelName::new` from `domain/models/labels/label_name.rs`: reject the
empty string (`value.is_empty()`) and byte lengths at or above 20. -/
def LabelName.new (value : String) : Except LabelNameError LabelName :=
  if strLen value = 0 then Except.error LabelNameError.nameTooShortError
  else if strLen value ≥ 20 then Except.error LabelNameError.nameTooLongError
  else Except.ok { value := value }

/-- Model of `TodoTextError` from `domain/models/todos/todo_text.rs` (the source
spells the first variant `TextEnptyError`). -/
inductive TodoTextError where
  | textEnptyError
  | textTooLongError
deriving DecidableEq, Repr

/-- The `thiserror` display messages of `TodoTextError`. -/
def TodoTextError.message : TodoTextError → String
  | .textEnptyError => "Todo text must not be empty."
  | .textTooLongError => "Todo text must be less than 100 characters."

/-- The `TodoText` value object. -/
structure TodoText where
  value : String
deriving DecidableEq, Repr

/-- Model of `TodoText::new` from `domain/models/todos/todo_text.rs`: reject the
empty string (`value.is_empty()`) and byte lengths at or above 100. -/
def TodoText.new (value : String) : Except TodoTextError TodoText :=
  if strLen value = 0 then Except.error TodoTextError.textEnptyError
  else if strLen value ≥ 100 then Except.error TodoTextError.textTooLongError
  else Except.ok { value := value }

/-! ## Entities (`domain/entity.rs`, `domain/models/...`) -/

/-- Model of `Uuid`-valued identities abstracted to naturals. -/
abbrev UserId := Nat

/-- Model of `Uuid`-valued identities abstracted to naturals. -/
abbrev TodoId := Nat

/-- Model of `Uuid`-valued identities abstracted to naturals. -/
abbrev LabelId := Nat

/-- The `User` entity from `domain/models/users/user.rs`. -/
structure User where
  user_id : UserId
  user_name : UserName
deriving DecidableEq, Repr

/-- Model of `Entity::eq` (identity-based equality), which is also `PartialEq` for
`User` (`impl PartialEq for User` delegates to `Entity::eq`). -/
def User.entityEq (self other : User) : Bool :=
  self.user_id == other.user_id

/-- Model of `User::new`: the `Uuid::new_v4()` call is modelled by the caller-supplied
fresh identifier; `UserId::new` never fails in the source. -/
def User.new (fresh_id : UserId) (user_name : UserName) : User :=
  { user_id := fresh_id, user_name := user_name }

/-- The `Label` entity from `domain/models/labels/label.rs`. -/
structure Label where
  label_id : LabelId
  label_name : LabelName
deriving DecidableEq, Repr

/-- Model of `Entity::eq` for labels (identity-based `PartialEq`). -/
def Label.entityEq (self other : Label) : Bool :=
  self.label_id == other.label_id

/-- The `Todo` entity from `domain/models/todos/todo.rs`; the
`HashSet<Label>` field is a duplicate-free list. -/
structure Todo where
  todo_id : TodoId
  todo_text : TodoText
  completed : Bool
  labels : List Label
deriving DecidableEq, Repr

/-- Model of `Todo::new`: fresh identity supplied by the caller, `completed` starts
`false`. -/
def Todo.new (fresh_id : TodoId) (todo_text : TodoText) (labels : List Label) : Todo :=
  { todo_id := fresh_id, todo_text := todo_text, completed := false, labels := labels }

/-- Model of `HashSet::insert` on a todo's label set: a no-op when a label equal by
`Label`'s `PartialEq` (identity) is already present. -/
def hashSetInsert (labels : List Label) (label : Label) : List Label :=
  if labels.any (fun l => Label.entityEq l label) then labels else labels ++ [label]

/-! ## In-memory user repository
(`infra/repository_impl/in_memory/users/in_memory_user_repository.rs`) -/

/-- Model of `UserRepositoryError` from `domain/models/users/user_repository.rs`.
The `Unexpected` variant is omitted: no in-memory operation produces it. -/
inductive UserRepositoryError where
  | notFound (user_id : UserId)
deriving DecidableEq, Repr

/-- The `thiserror` display message of `UserRepositoryError`. -/
def UserRepositoryError.message : UserRepositoryError → String
  | .notFound user_id => "User cannot be found, user id is " ++ toString user_id

/-- The `HashMap<UserId, User>` store, as an association list. -/
abbrev UserStore := List (UserId × User)

/-- Model of `InMemoryUserRepository::save`: `store.insert(user.user_id().clone(),
user.clone())`, an upsert by identity that always returns `Ok`. -/
def UserStore.save (store : UserStore) (user : User) : Except UserRepositoryError UserStore :=
  Except.ok ((user.user_id, user) :: store.filter (fun p => p.1 != user.user_id))

/-- Model of `InMemoryUserRepository::find`: `store.get(user_id)`. -/
def UserStore.find (store : UserStore) (user_id : UserId) : Option User :=
  (store.find? (fun p => p.1 == user_id)).map Prod.snd

/-- Model of `InMemoryUserRepository::find_by_name`: linear scan over the entries,
first user whose `user_name` equals the argument (`UserName` derives
structural `PartialEq`). -/
def UserStore.findByName (store : UserStore) (user_name : UserName) : Option User :=
  (store.find? (fun p => p.2.user_name == user_name)).map Prod.snd

/-- Model of `InMemoryUserRepository::find_all`: all stored users. -/
def UserStore.findAll (store : UserStore) : List User :=
  store.map Prod.snd

/-- Model of `InMemoryUserRepository::delete`: `NotFound` when the entity's id is
absent, otherwise remove the binding. -/
def UserStore.delete (store : UserStore) (user : User) : Except UserRepositoryError UserStore :=
  match store.find? (fun p => p.1 == user.user_id) with
  | some _ => Except.ok (store.filter (fun p => p.1 != user.user_id))
  | none => Except.error (UserRepositoryError.notFound user.user_id)

/-! ## Duplicate-avoidance domain service
(`domain/services/user_service.rs`) -/

/-- Model of `UserService::is_duplicated`: look the candidate's name up; not
duplicated when nothing is found; otherwise duplicated exactly when the
found user differs from the candidate under identity `PartialEq`. The
in-memory repository cannot fail, so the `anyhow::Result` is dropped. -/
def UserService.isDuplicated (store : UserStore) (user : User) : Bool :=
  match UserStore.findByName store user.user_name with
  | some user_found => !(User.entityEq user_found user)
  | none => false

/-! ## User application services (`application/users/...`)

Commands are modelled after identifier parsing: `UserId::parse` of the
command's `user_id` string either fails with `IllegalUserId` before the
repository is touched or yields a `UserId`, so the handlers below receive
the parsed identity directly. -/

/-- Model of `UserApplicationError` from `application/users/user_application_error.rs`
(the `IllegalUserId` variant arises only during the abstracted identifier
parsing and is never produced by the handlers as modelled). -/
inductive UserApplicationError where
  | illegalArgumentError (message : String)
  | illegalUserId (message : String)
  | duplicatedUser (user : User)
  | userNotFound (user_id : UserId)
  | unexpected (message : String)
deriving DecidableEq, Repr

/-- The `UserData` response DTO from `application/users/user_data.rs`. -/
structure UserData where
  user_id : UserId
  user_name : String
deriving DecidableEq, Repr

/-- Model of `UserData::new`. -/
def UserData.new (user : User) : UserData :=
  { user_id := user.user_id, user_name := user.user_name.value }

/-- Model of `UserCreateCommand`. -/
structure UserCreateCommand where
  user_name : String
deriving DecidableEq, Repr

/-- Model of `UserCreateApplicationService::handle`: validate the name, build the new
user (fresh identity supplied by the caller), consult the duplicate check,
then save. Returns the result together with the resulting store. -/
def UserCreateApplicationService.handle (fresh_id : UserId) (store : UserStore)
    (command : UserCreateCommand) : Except UserApplicationError UserData × UserStore :=
  match UserName.new command.user_name with
  | Except.error e => (Except.error (UserApplicationError.illegalArgumentError e.message), store)
  | Except.ok user_name =>
    let new_user := User.new fresh_id user_name
    if UserService.isDuplicated store new_user then
      (Except.error (UserApplicationError.duplicatedUser new_user), store)
    else
      match UserStore.save store new_user with
      | Except.ok saved => (Except.ok (UserData.new new_user), saved)
      | Except.error e => (Except.error (UserApplicationError.unexpected e.message), store)

/-- Model of `UserGetCommand`, with the identifier already parsed. -/
structure UserGetCommand where
  user_id : UserId
deriving DecidableEq, Repr

/-- Model of `UserGetApplicationService::handle`. -/
def UserGetApplicationService.handle (store : UserStore)
    (command : UserGetCommand) : Except UserApplicationError UserData × UserStore :=
  match UserStore.find store command.user_id with
  | some user => (Except.ok (UserData.new user), store)
  | none => (Except.error (UserApplicationError.userNotFound command.user_id), store)

/-- Model of `UserUpdateCommand`, with the identifier already parsed; the optional
`user_name` field is absent for a patch that leaves the name alone. -/
structure UserUpdateCommand where
  user_id : UserId
  user_name : Option String
deriving DecidableEq, Repr

/-- The `if let Some(user_name_string) = user_name_string` step of
`UserUpdateApplicationService::handle`: re-validate and overwrite the name
when present, keep the stored user untouched when absent. -/
def applyUserName (user : User) : Option String → Except UserNameError User
  | none => Except.ok user
  | some s => (UserName.new s).map (fun n => { user with user_name := n })

/-- Model of `UserUpdateApplicationService::handle`: look the user up (absence is
`UserNotFound`), patch the name when present, consult the duplicate check,
then save. -/
def UserUpdateApplicationService.handle (store : UserStore)
    (command : UserUpdateCommand) : Except UserApplicationError UserData × UserStore :=
  match UserStore.find store command.user_id with
  | none => (Except.error (UserApplicationError.userNotFound command.user_id), store)
  | some found =>
    match applyUserName found command.user_name with
    | Except.error e => (Except.error (UserApplicationError.illegalArgumentError e.message), store)
    | Except.ok user =>
      if UserService.isDuplicated store user then
        (Except.error (UserApplicationError.duplicatedUser user), store)
      else
        match UserStore.save store user with
        | Except.ok saved => (Except.ok (UserData.new user), saved)
        | Except.error e => (Except.error (UserApplicationError.unexpected e.message), store)

/-- Model of `UserDeleteCommand`, with the identifier already parsed. -/
structure UserDeleteCommand where
  user_id : UserId
deriving DecidableEq, Repr

/-- Model of `UserDeleteApplicationService::handle`: look the user up (absence is
`UserNotFound`), then delete, re-tagging a repository `NotFound` into
`UserNotFound`. -/
def UserDeleteApplicationService.handle (store : UserStore)
    (command : UserDeleteCommand) : Except UserApplicationError Unit × UserStore :=
  match UserStore.find store command.user_id with
  | none => (Except.error (UserApplicationError.userNotFound command.user_id), store)
  | some user =>
    match UserStore.delete store user with
    | Except.ok deleted => (Except.ok (), deleted)
    | Except.error (UserRepositoryError.notFound user_id) =>
      (Except.error (UserApplicationError.userNotFound user_id), store)

/-! ## In-memory todo and label repositories -/

/-- Model of `TodoRepositoryError` from `domain/models/todos/todo_repository.rs`
(only the variant the in-memory repository produces). -/
inductive TodoRepositoryError where
  | notFound (todo_id : TodoId)
deriving DecidableEq, Repr

/-- The `thiserror` display message of `TodoRepositoryError`. -/
def TodoRepositoryError.message : TodoRepositoryError → String
  | .notFound todo_id => "Todo cannot be found, todo id is " ++ toString todo_id

/-- The `HashMap<TodoId, Todo>` store, as an association list. -/
abbrev TodoStore := List (TodoId × Todo)

/-- Model of `InMemoryTodoRepository::save`: upsert by identity, always `Ok`. -/
def TodoStore.save (store : TodoStore) (todo : Todo) : Except TodoRepositoryError TodoStore :=
  Except.ok ((todo.todo_id, todo) :: store.filter (fun p => p.1 != todo.todo_id))

/-- Model of `InMemoryTodoRepository::find`. -/
def TodoStore.find (store : TodoStore) (todo_id : TodoId) : Option Todo :=
  (store.find? (fun p => p.1 == todo_id)).map Prod.snd

/-- The `HashMap<LabelId, Label>` store of the in-memory label repository. -/
abbrev LabelStore := List (LabelId × Label)

/-- Model of `InMemoryLabelRepository::find`. -/
def LabelStore.find (store : LabelStore) (label_id : LabelId) : Option Label :=
  (store.find? (fun p => p.1 == label_id)).map Prod.snd

/-! ## Todo application services (`application/todos/...`) -/

/-- Model of `TodoApplicationError` from
`application/todos/todo_application_error.rs` (the `IllegalTodoId` and
`IllegalLabelId` variants arise only during the abstracted identifier
parsing and are never produced by the handlers as modelled). -/
inductive TodoApplicationError where
  | illegalArgumentError (message : String)
  | illegalTodoId (message : String)
  | illegalLabelId (message : String)
  | todoNotFound (todo_id : TodoId)
  | labelNotFound (label_id : LabelId)
  | unexpected (message : String)
deriving DecidableEq, Repr

/-- The `LabelData` response DTO. -/
structure LabelData where
  label_id : LabelId
  label_name : String
deriving DecidableEq, Repr

/-- Model of `LabelData::new`. -/
def LabelData.new (label : Label) : LabelData :=
  { label_id := label.label_id, label_name := label.label_name.value }

/-- The `TodoData` response DTO from `application/todos/todo_data.rs`. -/
structure TodoData where
  todo_id : TodoId
  todo_text : String
  completed : Bool
  labels : List LabelData
deriving DecidableEq, Repr

/-- Model of `TodoData::new`. -/
def TodoData.new (todo : Todo) : TodoData :=
  { todo_id := todo.todo_id
    todo_text := todo.todo_text.value
    completed := todo.completed
    labels := todo.labels.map LabelData.new }

/-- The `for label_id_string in label_id_strings` loop shared by the todo
create and update handlers: look every label id up in the label repository,
inserting the found labels into a `HashSet`; a missing id aborts the loop
with `LabelNotFound`. -/
def resolveLabels (label_store : LabelStore) (acc : List Label) :
    List LabelId → Except TodoApplicationError (List Label)
  | [] => Except.ok acc
  | label_id :: rest =>
    match LabelStore.find label_store label_id with
    | none => Except.error (TodoApplicationError.labelNotFound label_id)
    | some label => resolveLabels label_store (hashSetInsert acc label) rest

/-- Model of `TodoCreateCommand`, with the label identifiers already parsed. -/
structure TodoCreateCommand where
  todo_text : String
  label_ids : List LabelId
deriving DecidableEq, Repr

/-- Model of `TodoCreateApplicationService::handle`: validate the text, resolve the
labels, build the new todo (fresh identity supplied by the caller,
`completed = false`), then save. No duplicate check of any kind. -/
def TodoCreateApplicationService.handle (fresh_id : TodoId) (todo_store : TodoStore)
    (label_store : LabelStore) (command : TodoCreateCommand) :
    Except TodoApplicationError TodoData × TodoStore :=
  match TodoText.new command.todo_text with
  | Except.error e => (Except.error (TodoApplicationError.illegalArgumentError e.message), todo_store)
  | Except.ok todo_text =>
    match resolveLabels label_store [] command.label_ids with
    | Except.error e => (Except.error e, todo_store)
    | Except.ok labels =>
      let new_todo := Todo.new fresh_id todo_text labels
      match TodoStore.save todo_store new_todo with
      | Except.ok saved => (Except.ok (TodoData.new new_todo), saved)
      | Except.error e => (Except.error (TodoApplicationError.unexpected e.message), todo_store)

/-- Model of `TodoUpdateCommand`, with the identifiers already parsed; every payload
field is optional (absent field = leave the stored value alone). -/
structure TodoUpdateCommand where
  todo_id : TodoId
  todo_text : Option String
  completed : Option Bool
  label_ids : Option (List LabelId)
deriving DecidableEq, Repr

/-- The `if let Some(todo_text_string) = todo_text_string` step of
`TodoUpdateApplicationService::handle`. -/
def applyTodoText (todo : Todo) : Option String → Except TodoTextError Todo
  | none => Except.ok todo
  | some s => (TodoText.new s).map (fun t => { todo with todo_text := t })

/-- The `if let Some(completed) = completed` step of
`TodoUpdateApplicationService::handle`. -/
def applyCompleted (todo : Todo) : Option Bool → Todo
  | none => todo
  | some b => { todo with completed := b }

/-- The `if let Some(label_id_strings) = label_id_strings` step of
`TodoUpdateApplicationService::handle`: resolve the given label ids into a
fresh `HashSet` and replace the todo's label set with it. -/
def applyLabels (label_store : LabelStore) (todo : Todo) :
    Option (List LabelId) → Except TodoApplicationError Todo
  | none => Except.ok todo
  | some ids => (resolveLabels label_store [] ids).map (fun ls => { todo with labels := ls })

/-- Model of `TodoUpdateApplicationService::handle`: look the todo up (absence is
`TodoNotFound`), patch exactly the fields present in the command, then
save. -/
def TodoUpdateApplicationService.handle (todo_store : TodoStore) (label_store : LabelStore)
    (command : TodoUpdateCommand) : Except TodoApplicationError TodoData × TodoStore :=
  match TodoStore.find todo_store command.todo_id with
  | none => (Except.error (TodoApplicationError.todoNotFound command.todo_id), todo_store)
  | some found =>
    match applyTodoText found command.todo_text with
    | Except.error e =>
      (Except.error (TodoApplicationError.illegalArgumentError e.message), todo_store)
    | Except.ok patched =>
      let patched2 := applyCompleted patched command.completed
      match applyLabels label_store patched2 command.label_ids with
      | Except.error e => (Except.error e, todo_store)
      | Except.ok patched3 =>
        match TodoStore.save todo_store patched3 with
        | Except.ok saved => (Except.ok (TodoData.new patched3), saved)
        | Except.error e =>
          (Except.error (TodoApplicationError.unexpected e.message), todo_store)

/-! ## Association-list helper lemmas -/

theorem assoc_find?_filter_ne {α : Type} (l : List (Nat × α)) (i j : Nat) (hij : i ≠ j) :
    (l.filter (fun p => p.1 != j)).find? (fun p => p.1 == i) = l.find? (fun p => p.1 == i) := by
  induction l with
  | nil => rfl
  | cons a l ih =>
    obtain ⟨k, v⟩ := a
    by_cases hkj : k = j
    · subst hkj
      have h2 : (k == i) = false := beq_eq_false_iff_ne.mpr (Ne.symm hij)
      simp [List.filter_cons, List.find?_cons, h2, ih]
    · have h1 : (k != j) = true := bne_iff_ne.mpr hkj
      by_cases hki : k = i
      · subst hki
        simp [List.filter_cons, h1, List.find?_cons]
      · have h2 : (k == i) = false := beq_eq_false_iff_ne.mpr hki
        simp [List.filter_cons, h1, List.find?_cons, h2, ih]

theorem assoc_find?_filter_self {α : Type} (l : List (Nat × α)) (j : Nat) :
    (l.filter (fun p => p.1 != j)).find? (fun p => p.1 == j) = none := by
  refine List.find?_eq_none.mpr ?_
  intro x hx
  rcases List.mem_filter.mp hx with ⟨-, hne⟩
  simpa using bne_iff_ne.mp hne

theorem userName_new_ok (s : String) (n : UserName) (h : UserName.new s = Except.ok n) :
    n = { value := s } := by
  simp only [UserName.new] at h
  split_ifs at h
  simp_all

/-! ## Claim theorems -/

/-- C2 counterexample: The claim fixes every configured minimum to 0 or
3, but `LabelName::new` (and likewise `TodoText::new`) rejects exactly the
empty string: with minimum 0 nothing would be rejected as too short, yet the
empty string is; with minimum 3 the one-byte string would be rejected, yet
it is accepted. So no minimum from the set (0 or 3) describes
`LabelName::new`. -/
theorem labelName_min_not_zero_or_three :
    ¬ ∃ m, (m = 0 ∨ m = 3) ∧ ∀ s : String,
      (LabelName.new s = Except.error LabelNameError.nameTooShortError ↔ strLen s < m) := by
  rintro ⟨m, hm, h⟩
  rcases hm with rfl | rfl
  · exact absurd ((h "").mp (by decide)) (by omega)
  · exact absurd ((h "a").mpr (by decide)) (by decide)

/-- C2 (amended): construction fails with the too-short variant exactly
when the length is below the configured minimum (3 for `UserName`, 1 — that
is, only the empty string — for `LabelName` and `TodoText`), fails with the
too-long variant exactly when the length is at or above the configured
maximum (20 for `UserName` and `LabelName`, 100 for `TodoText`), and
succeeds in all other cases. -/
theorem valueObject_new_error_variants (s : String) :
    (UserName.new s = Except.error UserNameError.nameTooShortError ↔ strLen s < 3) ∧
    (UserName.new s = Except.error UserNameError.nameTooLongError ↔ 20 ≤ strLen s) ∧
    ((∃ n, UserName.new s = Except.ok n) ↔ 3 ≤ strLen s ∧ strLen s < 20) ∧
    (LabelName.new s = Except.error LabelNameError.nameTooShortError ↔ strLen s < 1) ∧
    (LabelName.new s = Except.error LabelNameError.nameTooLongError ↔ 20 ≤ strLen s) ∧
    ((∃ n, LabelName.new s = Except.ok n) ↔ 1 ≤ strLen s ∧ strLen s < 20) ∧
    (TodoText.new s = Except.error TodoTextError.textEnptyError ↔ strLen s < 1) ∧
    (TodoText.new s = Except.error TodoTextError.textTooLongError ↔ 100 ≤ strLen s) ∧
    ((∃ t, TodoText.new s = Except.ok t) ↔ 1 ≤ strLen s ∧ strLen s < 100) := by
  refine ⟨?_, ?_, ?_, ?_, ?_, ?_, ?_, ?_, ?_⟩ <;>
  · simp only [UserName.new, LabelName.new, TodoText.new]
    split_ifs with h1 h2 <;> simp_all <;> omega

/-- C3: for every string whose length lies within the configured
`[min, max)` window, value-object construction succeeds and `value()`
returns the original string unchanged. -/
theorem valueObject_roundTrip (s : String) :
    (3 ≤ strLen s ∧ strLen s < 20 →
      ∃ n, UserName.new s = Except.ok n ∧ n.value = s) ∧
    (1 ≤ strLen s ∧ strLen s < 20 →
      ∃ n, LabelName.new s = Except.ok n ∧ n.value = s) ∧
    (1 ≤ strLen s ∧ strLen s < 100 →
      ∃ t, TodoText.new s = Except.ok t ∧ t.value = s) := by
  refine ⟨fun h => ⟨⟨s⟩, ?_, rfl⟩, fun h => ⟨⟨s⟩, ?_, rfl⟩, fun h => ⟨⟨s⟩, ?_, rfl⟩⟩ <;>
  · simp only [UserName.new, LabelName.new, TodoText.new]
    rw [if_neg (by omega), if_neg (by omega)]

/-- Witness for C3 at the strings "abc", "x" and "todo". -/
theorem valueObject_roundTrip_witness :
    (∃ n, UserName.new "abc" = Except.ok n ∧ n.value = "abc") ∧
    (∃ n, LabelName.new "x" = Except.ok n ∧ n.value = "x") ∧
    (∃ t, TodoText.new "todo" = Except.ok t ∧ t.value = "todo") :=
  ⟨(valueObject_roundTrip "abc").1 (by decide),
   (valueObject_roundTrip "x").2.1 (by decide),
   (valueObject_roundTrip "todo").2.2 (by decide)⟩

/-- C4: `save` is an upsert by identity that always succeeds, and a
subsequent `find` with the saved entity's id returns the saved entity (in
particular an entity equal to it by identity). -/
theorem userRepository_save_then_find (store : UserStore) (user : User) :
    ∃ saved, UserStore.save store user = Except.ok saved ∧
      UserStore.find saved user.user_id = some user := by
  refine ⟨_, rfl, ?_⟩
  simp [UserStore.find, List.find?_cons]

/-- C1: `is_duplicated(candidate)` is false when no stored user carries
the candidate's name; and when a stored user carries that name — all users
carrying it sharing one identity, as the service's design maintains — the
result is true exactly when that identity differs from the candidate's. -/
theorem userService_isDuplicated_spec (store : UserStore) (user : User) :
    ((∀ kv ∈ store, kv.2.user_name ≠ user.user_name) →
      UserService.isDuplicated store user = false) ∧
    (∀ kv ∈ store, kv.2.user_name = user.user_name →
      (∀ other ∈ store, other.2.user_name = user.user_name →
        other.2.user_id = kv.2.user_id) →
      (UserService.isDuplicated store user = true ↔ kv.2.user_id ≠ user.user_id)) := by
  constructor
  · intro hnone
    have h : store.find? (fun p => p.2.user_name == user.user_name) = none := by
      refine List.find?_eq_none.mpr fun x hx => ?_
      simpa using hnone x hx
    simp [UserService.isDuplicated, UserStore.findByName, h]
  · intro kv hmem hname huniq
    have hsome : (store.find? (fun p => p.2.user_name == user.user_name)).isSome :=
      List.find?_isSome.mpr ⟨kv, hmem, by simp [hname]⟩
    obtain ⟨w, hw⟩ := Option.isSome_iff_exists.mp hsome
    have hpred := List.find?_some hw
    have hwmem := List.mem_of_find?_eq_some hw
    have hid : w.2.user_id = kv.2.user_id := huniq w hwmem (by simpa using hpred)
    simp [UserService.isDuplicated, UserStore.findByName, hw, User.entityEq, hid]

/-- Witness for C1: a store holding the name "tester-1" under identity 1
flags a candidate with the same name and identity 2 as duplicated. -/
theorem userService_isDuplicated_witness :
    UserService.isDuplicated [(1, { user_id := 1, user_name := { value := "tester-1" } })]
      { user_id := 2, user_name := { value := "tester-1" } } = true := by
  refine ((userService_isDuplicated_spec
      [(1, { user_id := 1, user_name := { value := "tester-1" } })]
      { user_id := 2, user_name := { value := "tester-1" } }).2
      (1, { user_id := 1, user_name := { value := "tester-1" } }) ?_ rfl ?_).mpr (by decide)
  · simp
  · intro other hmem hname
    have : other = (1, { user_id := 1, user_name := { value := "tester-1" } }) := by
      simpa using hmem
    rw [this]

/-- C5: `delete(entity)` succeeds when the entity's id is present, after
which `find` on that id returns `None`; on an absent id it fails with
`NotFound` carrying that id. -/
theorem userRepository_delete_spec (store : UserStore) (user : User) :
    ((∃ v, UserStore.find store user.user_id = some v) →
      ∃ deleted, UserStore.delete store user = Except.ok deleted ∧
        UserStore.find deleted user.user_id = none) ∧
    (UserStore.find store user.user_id = none →
      UserStore.delete store user = Except.error (UserRepositoryError.notFound user.user_id)) := by
  constructor
  · rintro ⟨v, hv⟩
    simp only [UserStore.find] at hv
    obtain ⟨kv, hkv, -⟩ := Option.map_eq_some'.mp hv
    refine ⟨store.filter (fun p => p.1 != user.user_id), ?_, ?_⟩
    · simp [UserStore.delete, hkv]
    · simp [UserStore.find, assoc_find?_filter_self]
  · intro h
    simp only [UserStore.find] at h
    have hnone := Option.map_eq_none'.mp h
    simp [UserStore.delete, hnone]

/-- Witness for C5: deleting identity 1 from a store holding it succeeds and
empties it; deleting from the empty store reports `NotFound 1`. -/
theorem userRepository_delete_witness :
    (∃ deleted,
      UserStore.delete [(1, { user_id := 1, user_name := { value := "tester-1" } })]
        { user_id := 1, user_name := { value := "tester-1" } } = Except.ok deleted ∧
      UserStore.find deleted 1 = none) ∧
    UserStore.delete [] { user_id := 1, user_name := { value := "tester-1" } } =
      Except.error (UserRepositoryError.notFound 1) :=
  ⟨(userRepository_delete_spec [(1, { user_id := 1, user_name := { value := "tester-1" } })]
      { user_id := 1, user_name := { value := "tester-1" } }).1
      ⟨{ user_id := 1, user_name := { value := "tester-1" } }, by decide⟩,
   (userRepository_delete_spec [] { user_id := 1, user_name := { value := "tester-1" } }).2
      (by decide)⟩

/-- C9: a get, update or delete command whose referenced id is absent
from the repository yields the `UserNotFound` error and leaves the
repository state unchanged. -/
theorem userService_notFound_short_circuit (store : UserStore) (user_id : UserId)
    (user_name : Option String)
    (h : UserStore.find store user_id = none) :
    UserGetApplicationService.handle store { user_id := user_id } =
      (Except.error (UserApplicationError.userNotFound user_id), store) ∧
    UserUpdateApplicationService.handle store { user_id := user_id, user_name := user_name } =
      (Except.error (UserApplicationError.userNotFound user_id), store) ∧
    UserDeleteApplicationService.handle store { user_id := user_id } =
      (Except.error (UserApplicationError.userNotFound user_id), store) := by
  refine ⟨?_, ?_, ?_⟩ <;>
    simp [UserGetApplicationService.handle, UserUpdateApplicationService.handle,
      UserDeleteApplicationService.handle, h]

/-- C6: starting from a fresh repository, creating a user and then
creating a second user with the same name makes the second `handle` call
fail with the `Duplicated` error, while two creates with different valid
names both succeed (the fresh identities generated for the two users are
distinct, as `Uuid::new_v4` guarantees up to collision). -/
theorem userCreate_duplicate_spec (name1 name2 : String) (id1 id2 : UserId)
    (hid : id1 ≠ id2)
    (h1 : 3 ≤ strLen name1) (h2 : strLen name1 < 20)
    (h3 : 3 ≤ strLen name2) (h4 : strLen name2 < 20) :
    (name1 = name2 →
      ∃ data1 store1 candidate,
        UserCreateApplicationService.handle id1 [] { user_name := name1 } =
          (Except.ok data1, store1) ∧
        (UserCreateApplicationService.handle id2 store1 { user_name := name2 }).1 =
          Except.error (UserApplicationError.duplicatedUser candidate)) ∧
    (name1 ≠ name2 →
      ∃ data1 store1 data2 store2,
        UserCreateApplicationService.handle id1 [] { user_name := name1 } =
          (Except.ok data1, store1) ∧
        UserCreateApplicationService.handle id2 store1 { user_name := name2 } =
          (Except.ok data2, store2)) := by
  have hnew1 : UserName.new name1 = Except.ok { value := name1 } := by
    simp only [UserName.new]
    rw [if_neg (by omega), if_neg (by omega)]
  have hfirst : UserCreateApplicationService.handle id1 [] { user_name := name1 } =
      (Except.ok (UserData.new (User.new id1 { value := name1 })),
        [(id1, User.new id1 { value := name1 })]) := by
    simp [UserCreateApplicationService.handle, hnew1, UserService.isDuplicated,
      UserStore.findByName, UserStore.save, User.new]
  constructor
  · intro heq
    subst heq
    refine ⟨_, _, User.new id2 { value := name1 }, hfirst, ?_⟩
    have hbeq : (id1 == id2) = false := beq_eq_false_iff_ne.mpr hid
    simp [UserCreateApplicationService.handle, hnew1, UserService.isDuplicated,
      UserStore.findByName, List.find?_cons, User.new, User.entityEq, hbeq]
  · intro hne
    have hnew2 : UserName.new name2 = Except.ok { value := name2 } := by
      simp only [UserName.new]
      rw [if_neg (by omega), if_neg (by omega)]
    have hname_ne : (({ value := name1 } : UserName) == { value := name2 }) = false := by
      refine beq_eq_false_iff_ne.mpr ?_
      simpa using hne
    have hbne : (id1 != id2) = true := bne_iff_ne.mpr hid
    refine ⟨_, _, UserData.new (User.new id2 { value := name2 }),
      [(id2, User.new id2 { value := name2 }), (id1, User.new id1 { value := name1 })],
      hfirst, ?_⟩
    simp [UserCreateApplicationService.handle, hnew2, UserService.isDuplicated,
      UserStore.findByName, List.find?_cons, User.new, UserStore.save, hname_ne, hbne]

/-- Witness for C6: identities 1 and 2, names "tester-1" twice, then
"tester-1" and "tester-2". -/
theorem userCreate_duplicate_witness :
    (∃ data1 store1 candidate,
      UserCreateApplicationService.handle 1 [] { user_name := "tester-1" } =
        (Except.ok data1, store1) ∧
      (UserCreateApplicationService.handle 2 store1 { user_name := "tester-1" }).1 =
        Except.error (UserApplicationError.duplicatedUser candidate)) ∧
    (∃ data1 store1 data2 store2,
      UserCreateApplicationService.handle 1 [] { user_name := "tester-1" } =
        (Except.ok data1, store1) ∧
      UserCreateApplicationService.handle 2 store1 { user_name := "tester-2" } =
        (Except.ok data2, store2)) :=
  ⟨(userCreate_duplicate_spec "tester-1" "tester-1" 1 2 (by decide)
      (by decide) (by decide) (by decide) (by decide)).1 rfl,
   (userCreate_duplicate_spec "tester-1" "tester-2" 1 2 (by decide)
      (by decide) (by decide) (by decide) (by decide)).2 (by decide)⟩

/-- C7: updating a stored user without changing its name (name field
absent, or equal to the current name) never fails with `Duplicated` when no
other stored user shares that name. -/
theorem userUpdate_no_self_duplicate (store : UserStore) (user : User)
    (user_name : Option String)
    (hfind : UserStore.find store user.user_id = some user)
    (hname : user_name = none ∨ user_name = some user.user_name.value)
    (huniq : ∀ kv ∈ store, kv.2.user_name = user.user_name →
      kv.2.user_id = user.user_id) :
    ∀ u, (UserUpdateApplicationService.handle store
        { user_id := user.user_id, user_name := user_name }).1 ≠
      Except.error (UserApplicationError.duplicatedUser u) := by
  intro u
  have hfind' := hfind
  simp only [UserStore.find] at hfind'
  obtain ⟨kv, hkv, hsnd⟩ := Option.map_eq_some'.mp hfind'
  have hmem := List.mem_of_find?_eq_some hkv
  have hdup : UserService.isDuplicated store user = false := by
    have hsome : (store.find? (fun p => p.2.user_name == user.user_name)).isSome :=
      List.find?_isSome.mpr ⟨kv, hmem, by simp [hsnd]⟩
    obtain ⟨w, hw⟩ := Option.isSome_iff_exists.mp hsome
    have hid : w.2.user_id = user.user_id :=
      huniq w (List.mem_of_find?_eq_some hw) (by simpa using List.find?_some hw)
    simp [UserService.isDuplicated, UserStore.findByName, hw, User.entityEq, hid]
  rcases hname with rfl | rfl
  · simp [UserUpdateApplicationService.handle, hfind, applyUserName, hdup, UserStore.save]
  · rcases hnew : UserName.new user.user_name.value with e | n
    · simp [UserUpdateApplicationService.handle, hfind, applyUserName, hnew, Except.map]
    · have hn : n = user.user_name := (userName_new_ok _ _ hnew).trans rfl
      have happly : applyUserName user (some user.user_name.value) = Except.ok user := by
        simp only [applyUserName, hnew, hn, Except.map]
      simp [UserUpdateApplicationService.handle, hfind, happly, hdup, UserStore.save]

/-- Witness for C7: the sole stored user renamed to its own current name is
not flagged as a duplicate of itself. -/
theorem userUpdate_no_self_duplicate_witness :
    (UserUpdateApplicationService.handle
        [(1, { user_id := 1, user_name := { value := "tester-1" } })]
        { user_id := 1, user_name := none }).1 ≠
      Except.error (UserApplicationError.duplicatedUser
        { user_id := 1, user_name := { value := "tester-1" } }) :=
  userUpdate_no_self_duplicate
    [(1, { user_id := 1, user_name := { value := "tester-1" } })]
    { user_id := 1, user_name := { value := "tester-1" } } none (by decide) (Or.inl rfl)
    (by
      intro kv hmem hname
      have : kv = (1, { user_id := 1, user_name := { value := "tester-1" } }) := by
        simpa using hmem
      rw [this])
    { user_id := 1, user_name := { value := "tester-1" } }

theorem applyTodoText_fields (todo : Todo) (o : Option String) (t : Todo)
    (h : applyTodoText todo o = Except.ok t) :
    t.todo_id = todo.todo_id ∧ t.completed = todo.completed ∧ t.labels = todo.labels ∧
      (o = none → t = todo) := by
  cases o with
  | none =>
    simp only [applyTodoText] at h
    injection h with h
    subst h
    simp
  | some s =>
    simp only [applyTodoText] at h
    rcases hnew : TodoText.new s with e | tt <;> rw [hnew] at h
    · simp [Except.map] at h
    · simp only [Except.map] at h
      injection h with h
      subst h
      simp

theorem applyCompleted_fields (todo : Todo) (o : Option Bool) :
    (applyCompleted todo o).todo_id = todo.todo_id ∧
    (applyCompleted todo o).todo_text = todo.todo_text ∧
    (applyCompleted todo o).labels = todo.labels ∧
    (o = none → applyCompleted todo o = todo) := by
  cases o <;> simp [applyCompleted]

theorem applyLabels_fields (label_store : LabelStore) (todo : Todo)
    (o : Option (List LabelId)) (t : Todo)
    (h : applyLabels label_store todo o = Except.ok t) :
    t.todo_id = todo.todo_id ∧ t.todo_text = todo.todo_text ∧ t.completed = todo.completed ∧
      (o = none → t = todo) := by
  cases o with
  | none =>
    simp only [applyLabels] at h
    injection h with h
    subst h
    simp
  | some ids =>
    simp only [applyLabels] at h
    rcases hres : resolveLabels label_store [] ids with e | ls <;> rw [hres] at h
    · simp [Except.map] at h
    · simp only [Except.map] at h
      injection h with h
      subst h
      simp

/-- C8: a successful todo update applies only the fields present in the
command; the stored todo's text, completion flag and label set survive the
update whenever the corresponding command field is absent. -/
theorem todoUpdate_patch_frame (todo_store : TodoStore) (label_store : LabelStore)
    (command : TodoUpdateCommand) (todo : Todo) (data : TodoData) (updated : TodoStore)
    (hfind : TodoStore.find todo_store command.todo_id = some todo)
    (hkey : todo.todo_id = command.todo_id)
    (hok : TodoUpdateApplicationService.handle todo_store label_store command =
      (Except.ok data, updated)) :
    ∃ t, TodoStore.find updated command.todo_id = some t ∧
      (command.todo_text = none → t.todo_text = todo.todo_text) ∧
      (command.completed = none → t.completed = todo.completed) ∧
      (command.label_ids = none → t.labels = todo.labels) := by
  simp only [TodoUpdateApplicationService.handle, hfind] at hok
  rcases h1 : applyTodoText todo command.todo_text with e | t1 <;> simp only [h1] at hok
  · simp at hok
  rcases h3 : applyLabels label_store (applyCompleted t1 command.completed) command.label_ids
    with e | t3 <;> simp only [h3] at hok
  · simp at hok
  simp only [TodoStore.save, Prod.mk.injEq] at hok
  obtain ⟨-, hupd⟩ := hok
  obtain ⟨hid1, hc1, hl1, hnone1⟩ := applyTodoText_fields todo command.todo_text t1 h1
  obtain ⟨hid2, ht2, hl2, hnone2⟩ := applyCompleted_fields t1 command.completed
  obtain ⟨hid3, ht3, hc3, hnone3⟩ :=
    applyLabels_fields label_store (applyCompleted t1 command.completed) command.label_ids t3 h3
  have hid : t3.todo_id = command.todo_id := by rw [hid3, hid2, hid1, hkey]
  refine ⟨t3, ?_, ?_, ?_, ?_⟩
  · rw [← hupd]
    simp [TodoStore.find, List.find?_cons, hid]
  · intro h
    rw [ht3, ht2, hnone1 h]
  · intro h
    rw [hc3, hnone2 h, hc1]
  · intro h
    rw [hnone3 h, hl2, hl1]

/-- Witness for C8: the all-fields-absent update of the single stored todo
leaves text, completion flag and label set unchanged. -/
theorem todoUpdate_patch_frame_witness :
    ∃ t, TodoStore.find
        [(1, { todo_id := 1, todo_text := { value := "text" }, completed := false,
               labels := [] })] 1 = some t ∧
      ((none : Option String) = none → t.todo_text = { value := "text" }) ∧
      ((none : Option Bool) = none → t.completed = false) ∧
      ((none : Option (List LabelId)) = none → t.labels = []) :=
  todoUpdate_patch_frame
    [(1, { todo_id := 1, todo_text := { value := "text" }, completed := false, labels := [] })]
    [] { todo_id := 1, todo_text := none, completed := none, label_ids := none }
    { todo_id := 1, todo_text := { value := "text" }, completed := false, labels := [] }
    { todo_id := 1, todo_text := "text", completed := false, labels := [] }
    [(1, { todo_id := 1, todo_text := { value := "text" }, completed := false, labels := [] })]
    (by decide) (by decide) (by decide)

/-- Witness for C9 at the empty store and identity 0. -/
theorem userService_notFound_short_circuit_witness :
    UserGetApplicationService.handle [] { user_id := 0 } =
      (Except.error (UserApplicationError.userNotFound 0), []) ∧
    UserUpdateApplicationService.handle [] { user_id := 0, user_name := none } =
      (Except.error (UserApplicationError.userNotFound 0), []) ∧
    UserDeleteApplicationService.handle [] { user_id := 0 } =
      (Except.error (UserApplicationError.userNotFound 0), []) :=
  userService_notFound_short_circuit [] 0 none (by decide)

theorem resolveLabels_ok (label_store : LabelStore) (ids : List LabelId)
    (h : ∀ i ∈ ids, (LabelStore.find label_store i).isSome) :
    ∀ acc, ∃ ls, resolveLabels label_store acc ids = Except.ok ls := by
  induction ids with
  | nil => exact fun acc => ⟨acc, rfl⟩
  | cons i rest ih =>
    intro acc
    obtain ⟨l, hl⟩ := Option.isSome_iff_exists.mp (h i (List.mem_cons_self i rest))
    obtain ⟨ls, hls⟩ := ih (fun j hj => h j (List.mem_cons_of_mem i hj)) (hashSetInsert acc l)
    exact ⟨ls, by simp [resolveLabels, hl, hls]⟩

/-- C10: todo creation performs no duplicate check: two create commands
with the identical valid text (and resolvable label lists), handled one
after the other against the same repository with distinct fresh identities,
both succeed and leave two distinct todos carrying the same text. -/
theorem todoCreate_no_duplicate_check (todo_store : TodoStore) (label_store : LabelStore)
    (text : String) (ids1 ids2 : List LabelId) (id1 id2 : TodoId)
    (hid : id1 ≠ id2)
    (h1 : 1 ≤ strLen text) (h2 : strLen text < 100)
    (hl1 : ∀ i ∈ ids1, (LabelStore.find label_store i).isSome)
    (hl2 : ∀ i ∈ ids2, (LabelStore.find label_store i).isSome) :
    ∃ data1 store1 data2 store2,
      TodoCreateApplicationService.handle id1 todo_store label_store
        { todo_text := text, label_ids := ids1 } = (Except.ok data1, store1) ∧
      TodoCreateApplicationService.handle id2 store1 label_store
        { todo_text := text, label_ids := ids2 } = (Except.ok data2, store2) ∧
      ∃ t1 t2, TodoStore.find store2 id1 = some t1 ∧ TodoStore.find store2 id2 = some t2 ∧
        t1.todo_id ≠ t2.todo_id ∧ t1.todo_text = t2.todo_text := by
  have hnew : TodoText.new text = Except.ok { value := text } := by
    simp only [TodoText.new]
    rw [if_neg (by omega), if_neg (by omega)]
  obtain ⟨ls1, hls1⟩ := resolveLabels_ok label_store ids1 hl1 []
  obtain ⟨ls2, hls2⟩ := resolveLabels_ok label_store ids2 hl2 []
  refine ⟨TodoData.new (Todo.new id1 { value := text } ls1),
    (id1, Todo.new id1 { value := text } ls1) :: todo_store.filter (fun p => p.1 != id1),
    TodoData.new (Todo.new id2 { value := text } ls2),
    (id2, Todo.new id2 { value := text } ls2) ::
      ((id1, Todo.new id1 { value := text } ls1) ::
        todo_store.filter (fun p => p.1 != id1)).filter (fun p => p.1 != id2),
    ?_, ?_, Todo.new id1 { value := text } ls1, Todo.new id2 { value := text } ls2,
    ?_, ?_, hid, rfl⟩
  · simp [TodoCreateApplicationService.handle, hnew, hls1, TodoStore.save, Todo.new]
  · simp [TodoCreateApplicationService.handle, hnew, hls2, TodoStore.save, Todo.new]
  · have hne : (id2 == id1) = false := beq_eq_false_iff_ne.mpr (Ne.symm hid)
    simp only [TodoStore.find, List.find?_cons, hne]
    rw [assoc_find?_filter_ne _ id1 id2 hid]
    simp [List.find?_cons]
  · simp [TodoStore.find, List.find?_cons]

/-- Witness for C10: two creates with the text "a" and no labels, from the
empty stores, with fresh identities 0 and 1. -/
theorem todoCreate_no_duplicate_check_witness :
    ∃ data1 store1 data2 store2,
      TodoCreateApplicationService.handle 0 [] [] { todo_text := "a", label_ids := [] } =
        (Except.ok data1, store1) ∧
      TodoCreateApplicationService.handle 1 store1 [] { todo_text := "a", label_ids := [] } =
        (Except.ok data2, store2) ∧
      ∃ t1 t2, TodoStore.find store2 0 = some t1 ∧ TodoStore.find store2 1 = some t2 ∧
        t1.todo_id ≠ t2.todo_id ∧ t1.todo_text = t2.todo_text :=
  todoCreate_no_duplicate_check [] [] "a" [] [] 0 1 (by decide) (by decide) (by decide)
    (by simp) (by simp)

end HelloWorldAxum3
